import Mathlib

/-!
Verification of the ShellHub agent's reverse-tunnel core (`main.go`) against its
natural-language specification.  The Go code is shallowly embedded: pure string
manipulation becomes Lean functions, the handlers become explicit functions from
request data and external-call outcomes to a result record (final registry state,
HTTP error response emitted, log actions), and the supervisor loop body becomes a
function from the iteration's events to the list of actions it performs.
-/

namespace ShellHubAgent

/-- Session identifiers, as used for the `{id}` route variable. -/
abbrev SessionId := String

/-- An opaque handle standing for a `net.Conn` raw duplex stream. -/
abbrev Conn := Nat

/-- The Session Registry `serv.Sessions`: a Go `map[string]net.Conn`, embedded as an
association list with map semantics (at most one binding per key). -/
abbrev Registry := List (SessionId × Conn)

/-- Go map update `m[k] = v`: overwrites any prior binding for `k`. -/
def regPut (m : Registry) (k : SessionId) (v : Conn) : Registry :=
  (k, v) :: m.filter (fun p => p.1 ≠ k)

/-- Go map deletion `delete(m, k)`: removes the binding for `k` when present,
a no-op otherwise. -/
def regRemove (m : Registry) (k : SessionId) : Registry :=
  m.filter (fun p => p.1 ≠ k)

/-- Key membership in the registry. -/
def regContains (m : Registry) (k : SessionId) : Bool :=
  m.any (fun p => p.1 == k)

/-- The key set of the registry, as snapshotted by the identity refresh loop
(`for key := range serv.Sessions`). -/
def regKeys (m : Registry) : List SessionId :=
  m.map Prod.fst

/-! ## Session-open route: `tun.ConnHandler` -/

/-- The inputs of one `tun.ConnHandler` invocation: the route's `{id}` variable, whether
the response writer implements `http.Hijacker`, whether `hj.Hijack()` fails, and the
`"http-conn"` context value when it is a `net.Conn` (`none` when the type assertion
on the context value fails). -/
structure ConnRequest where
  id : SessionId
  hijackable : Bool
  hijackErr : Bool
  ctxConn : Option Conn
deriving DecidableEq, Repr

/-- The observable outcome of one `tun.ConnHandler` invocation, after the handler
returns: the final registry state, the `http.Error` response (message, status) when one
was written, whether the "Type assertion failed" warning was logged, and whether the
stream was handed to `serv.HandleConn`. -/
structure ConnOutcome where
  registry : Registry
  response : Option (String × Nat)
  warned : Bool
  handled : Bool
deriving DecidableEq, Repr

/-- Embedding of `tun.ConnHandler` (main.go:126-154) as a function on the registry.
Branches, in source order: response writer not an `http.Hijacker` → `http.Error` 500;
`hj.Hijack()` fails → `http.Error` 500; the `"http-conn"` context value is not a
`net.Conn` → warning log only; otherwise `serv.Sessions[vars["id"]] = conn`, then
`serv.HandleConn(conn)` and `conn.Close()`.  `server.HandleConn` is the external
shell/SFTP collaborator (spec section 6, `handle(stream, sessionID)`); it consumes
the stream and does not touch the registry, so the registry returned here is the
state when the handler returns.  No branch deletes the registry entry. -/
def connHandler (req : ConnRequest) (sessions : Registry) : ConnOutcome :=
  if !req.hijackable then
    { registry := sessions
      response := some ("webserver doesn't support hijacking", 500)
      warned := false
      handled := false }
  else if req.hijackErr then
    { registry := sessions
      response := some ("failed to hijack connection", 500)
      warned := false
      handled := false }
  else
    match req.ctxConn with
    | none =>
      { registry := sessions
        response := none
        warned := true
        handled := false }
    | some conn =>
      { registry := regPut sessions req.id conn
        response := none
        warned := false
        handled := true }

/-! ## Session-close route: `tun.CloseHandler` -/

/-- Modelled from the spec: `server.CloseSession` (the `server` package is not under
`src/`; only its caller `tun.CloseHandler` at main.go:208-211 is).  Per spec sections
4.1 and 4.2 the close route "calls `remove({id})` on the Session Registry; idempotent,
no error on missing id", and `remove(id)` "deletes the entry if present, a no-op
otherwise". -/
def closeSession (m : Registry) (id : SessionId) : Registry :=
  regRemove m id

/-- Embedding of `tun.CloseHandler` (main.go:208-211): reads the `{id}` route variable
and calls `serv.CloseSession(vars["id"])`. -/
def closeHandler (m : Registry) (id : SessionId) : Registry :=
  closeSession m id

/-! ## HTTP-proxy route: `tun.HTTPHandler` -/

/-- A `net/url.URL`, restricted to the components the handler touches. -/
structure URL where
  scheme : String
  host : String
  path : String
deriving DecidableEq, Repr

/-- Whether the pattern is a leading segment of the character list, compared
character by character. -/
def matchesAt : List Char → List Char → Bool
  | [], _ => true
  | _ :: _, [] => false
  | p :: ps, c :: cs => p == c && matchesAt ps cs

/-- Splits a character list around the first occurrence of the pattern: returns the
characters before the match and the characters after it, or `none` when the pattern
does not occur. -/
def breakOn (pat : List Char) : List Char → Option (List Char × List Char)
  | [] => if pat.isEmpty then some ([], []) else none
  | c :: cs =>
    if matchesAt pat (c :: cs) then
      some ([], (c :: cs).drop pat.length)
    else
      match breakOn pat cs with
      | some (pre, post) => some (c :: pre, post)
      | none => none

/-- Model of Go `(*url.URL).Parse(ref)` — parse the reference string and resolve it
against the base URL — for the reference shapes an `X-Path` header can carry:
a reference with an explicit scheme `"s://h/p"` is absolute and wins outright; a
path reference keeps the base's scheme and host, resolving a relative path against
the base path's directory (RFC 3986 reference resolution, `url.ResolveReference`:
the resolved scheme is the reference's own scheme when nonempty and otherwise the
base's); a reference containing an ASCII control character makes `url.Parse` fail
(`none`). -/
def urlParse (base : URL) (ref : String) : Option URL :=
  let rs := ref.toList
  if rs.any (fun c => c.toNat < 0x20) then
    none
  else
    match breakOn "://".toList rs with
    | some (schemeChars, rest) =>
      let host := rest.takeWhile (fun c => c ≠ '/')
      some { scheme := String.mk schemeChars, host := String.mk host
             path := String.mk (rest.drop host.length) }
    | none =>
      match rs with
      | '/' :: _ =>
        some { scheme := base.scheme, host := base.host, path := String.mk rs }
      | _ =>
        some { scheme := base.scheme, host := base.host
               path := String.mk ((base.path.toList.reverse.dropWhile
                 (fun c => c ≠ '/')).reverse ++ rs) }

/-- The inputs of one `tun.HTTPHandler` invocation: the virtual request's URL
(`r.URL`), the `X-Path` and `X-Namespace` headers, and `r.RemoteAddr`. -/
structure ProxyRequest where
  url : URL
  xPath : String
  xNamespace : String
  remoteAddr : String
deriving DecidableEq, Repr

/-- How the `io.Copy(out, in)` in step 4 of the proxy exchange ends. -/
inductive CopyEnd where
  /-- The copy ran to a clean end of stream (`io.Copy` returns a nil error). -/
  | cleanEOF
  /-- The copy error satisfies `errors.Is(err, io.ErrUnexpectedEOF)`. -/
  | unexpectedEOF
  /-- The copy returned some other non-nil error. -/
  | otherError
deriving DecidableEq, Repr

/-- Outcomes of the handler's external calls: whether `net.Dial("tcp", ":80")`
succeeds, whether `r.Write(in)` succeeds, whether the response-controller `Hijack()`
succeeds, and how the byte copy ends. -/
structure ProxyEnv where
  dialOk : Bool
  writeOk : Bool
  hijackOk : Bool
  copyEnd : CopyEnd
deriving DecidableEq, Repr

/-- One invocation of the handler's `replyError` closure: it logs the error with the
fields `remote` (= `r.RemoteAddr`), `namespace` (= `X-Namespace` header) and `path`
(= `X-Path` header) as diagnostic context, and writes `http.Error(w, msg, code)`. -/
structure ErrorReply where
  msg : String
  code : Nat
  remote : String
  nspace : String
  path : String
deriving DecidableEq, Repr

/-- The observable outcome of one `tun.HTTPHandler` invocation: the `replyError`
call when one happened, and the value of `r.URL` at the moment `r.Write(in)` was
invoked (`none` when the handler returned before reaching the write). -/
structure ProxyResult where
  reply : Option ErrorReply
  writeURL : Option URL
deriving DecidableEq, Repr

/-- Embedding of `tun.HTTPHandler` (main.go:155-207).  In source order: dial the
local service (failure → `replyError` 500); parse `X-Path` against `r.URL` (failure →
`replyError` 500); then `r.URL.Scheme = "http"` mutates the URL object that the very
next statement `r.URL = url` replaces, so the scheme assignment is discarded and the
URL carried by the written request is the parse result itself; `r.Write(in)` (failure
→ `replyError` 500); hijack the response controller (failure → `replyError` 500);
`io.Copy(out, in)`, and `replyError` 500 exactly when the copy error satisfies
`errors.Is(err, io.ErrUnexpectedEOF)` — every other copy ending returns silently. -/
def httpHandler (req : ProxyRequest) (env : ProxyEnv) : ProxyResult :=
  let replyError := fun (msg : String) (code : Nat) =>
    { msg := msg, code := code, remote := req.remoteAddr
      nspace := req.xNamespace, path := req.xPath : ErrorReply }
  if !env.dialOk then
    { reply := some (replyError "failed to connect to HTTP the server on device" 500)
      writeURL := none }
  else
    match urlParse req.url req.xPath with
    | none =>
      { reply := some (replyError "failed to parse URL" 500)
        writeURL := none }
    | some url =>
      if !env.writeOk then
        { reply := some (replyError "failed to write request to the server on device" 500)
          writeURL := some url }
      else if !env.hijackOk then
        { reply := some (replyError "failed to hijack connection" 500)
          writeURL := some url }
      else
        match env.copyEnd with
        | CopyEnd.unexpectedEOF =>
          { reply := some (replyError "failed to copy response from device service to client" 500)
            writeURL := some url }
        | _ =>
          { reply := none
            writeURL := some url }

/-! ## Reconnection supervisor: the goroutine loop in `NewAgentServer` -/

/-- The externally visible actions of one iteration of the supervisor's `for` loop. -/
inductive SupAction where
  /-- `agent.newReverseListener()` is called. -/
  | dial
  /-- `time.Sleep(time.Second * n)` is called. -/
  | sleep (seconds : Nat)
  /-- The "Server connection established" log line is emitted. -/
  | logEstablished
  /-- `tun.Listen(listener)` is entered (the accept loop runs until it returns). -/
  | listen
deriving DecidableEq, Repr

/-- What an iteration of the supervisor loop encounters: either the dial fails, or it
succeeds and `tun.Listen` eventually returns, with or without an error. -/
inductive SupEvent where
  /-- `agent.newReverseListener()` returns an error. -/
  | dialFail
  /-- Dial succeeds and `tun.Listen(listener)` returns a non-nil error. -/
  | listenErr
  /-- Dial succeeds and `tun.Listen(listener)` returns nil. -/
  | listenNil
deriving DecidableEq, Repr

/-- Embedding of one iteration of the supervisor goroutine (main.go:215-246) as the
list of actions it performs before the loop continues.  Dial failure sleeps 10
seconds and continues; on success the connection identifier is logged and
`tun.Listen` runs; when `tun.Listen` returns — with an error (`continue`) or without
(falling off the loop body) — the loop repeats with no sleep on either path. -/
def supervisorIteration : SupEvent → List SupAction
  | SupEvent.dialFail => [SupAction.dial, SupAction.sleep 10]
  | SupEvent.listenErr => [SupAction.dial, SupAction.logEstablished, SupAction.listen]
  | SupEvent.listenNil => [SupAction.dial, SupAction.logEstablished, SupAction.listen]

/-- Recognizes a backoff wait among a supervisor iteration's actions. -/
def isSleepAction : SupAction → Bool
  | SupAction.sleep _ => true
  | _ => false

/-! ## Connection identifier (`sshid`) formatting -/

/-- Model of Go `strings.NewReplacer(p1, r1, ..., pn, rn).Replace(s)`: a single left-
to-right pass over `s`; at each position the first listed pattern that matches is
replaced (its replacement is emitted verbatim, never rescanned) and scanning resumes
after the matched text; otherwise one character is copied.  Fuel bounds the
recursion; `s.length` suffices since every step consumes at least one character of
`s` when all patterns are nonempty. -/
def goReplacer (pats : List (List Char × List Char)) : Nat → List Char → List Char
  | 0, s => s
  | _ + 1, [] => []
  | fuel + 1, c :: rest =>
    match pats.find? (fun pr => matchesAt pr.1 (c :: rest)) with
    | some pr => pr.2 ++ goReplacer pats fuel ((c :: rest).drop pr.1.length)
    | none => c :: goReplacer pats fuel rest

/-- Model of `strings.Split(s, ":")[0]`: everything before the first `':'` (the whole
string when there is no colon). -/
def hostOfEndpoint (s : String) : String :=
  String.mk (s.toList.takeWhile (fun c => c ≠ ':'))

/-- The template the sshid is produced from (main.go:232). -/
def sshidTemplate : String := "{namespace}.{tenantName}@{sshEndpoint}"

/-- Embedding of the sshid construction (main.go:228-232): a `strings.Replacer` over
the three placeholders, where the `{sshEndpoint}` replacement is
`strings.Split(sshEndpoint, ":")[0]`, applied to the template. -/
def sshidOf (nspace tenantName sshEndpoint : String) : String :=
  String.mk (goReplacer
    [("{namespace}".toList, nspace.toList),
     ("{tenantName}".toList, tenantName.toList),
     ("{sshEndpoint}".toList, (hostOfEndpoint sshEndpoint).toList)]
    sshidTemplate.length sshidTemplate.toList)

/-! ## Startup configuration checks in `NewAgentServer` -/

/-- Model of `logrus.ParseLevel` (external logging library): the level names it
accepts, compared case-insensitively. -/
def validLogLevels : List String :=
  ["panic", "fatal", "error", "warn", "warning", "info", "debug", "trace"]

/-- ASCII lowercasing of one character, as `strings.ToLower` does for the ASCII
range the level names use. -/
def lowerChar (c : Char) : Char :=
  if 65 ≤ c.toNat ∧ c.toNat ≤ 90 then Char.ofNat (c.toNat + 32) else c

/-- Whether `log.ParseLevel(s)` succeeds. -/
def parseLevelOk (s : String) : Bool :=
  validLogLevels.contains (String.mk (s.toList.map lowerChar))

/-- The configuration fields the startup checks read (`ConfigOptions`). -/
structure ConfigOptions where
  LogLevel : String
  SingleUserPassword : String
deriving DecidableEq, Repr

/-- How far `NewAgentServer` gets at startup: either `os.Exit(code)` fired during the
configuration checks, or the checks passed and the function proceeds to create the
agent and start the tunnel supervisor. -/
inductive StartupOutcome where
  | exited (code : Nat)
  | proceedsToTunnel
deriving DecidableEq, Repr

/-- Embedding of the startup checks of `NewAgentServer` (main.go:81-100), in source
order: invalid log level → `os.Exit(1)`; effective uid 0 with a single-user password
set → `os.Exit(1)`; effective uid non-zero with no single-user password →
`os.Exit(1)`; otherwise execution continues toward agent creation and the tunnel
goroutine. -/
def startupChecks (opts : ConfigOptions) (euid : Nat) : StartupOutcome :=
  if !parseLevelOk opts.LogLevel then
    StartupOutcome.exited 1
  else if euid == 0 && opts.SingleUserPassword != "" then
    StartupOutcome.exited 1
  else if euid != 0 && opts.SingleUserPassword == "" then
    StartupOutcome.exited 1
  else
    StartupOutcome.proceedsToTunnel

/-! ## Identity refresh loop: the ticker body in `NewAgentServer` -/

/-- The observable outcome of one tick of the refresh loop (main.go:251-262): the
session-id snapshot stored into `agent.sessions`, whether `serv.SetDeviceName` was
called, and the device name presented to session routing after the tick (the name
previously set, unless this tick called `SetDeviceName`). -/
structure TickResult where
  reportedSessions : List SessionId
  setDeviceNameCalled : Bool
  routingName : String
deriving DecidableEq, Repr

/-- Embedding of one tick of the identity refresh loop: snapshot the keys of
`serv.Sessions` into `agent.sessions`, call `agent.authorize()`, and call
`serv.SetDeviceName(agent.authData.Name)` exactly when `authorize` returned a
non-nil error.  `authErr` is whether `agent.authorize()` failed, `cachedName` is
`agent.authData.Name` after the call, and `prevRoutingName` is the device name
session routing held before the tick. -/
def refreshTick (sessions : Registry) (authErr : Bool) (cachedName : String)
    (prevRoutingName : String) : TickResult :=
  if authErr then
    { reportedSessions := regKeys sessions
      setDeviceNameCalled := true
      routingName := cachedName }
  else
    { reportedSessions := regKeys sessions
      setDeviceNameCalled := false
      routingName := prevRoutingName }

/-! ## Theorems for the claims -/

/-- C1: after a session-open directive registers a stream under `"abc"` and the Raw
Stream Bridge's handling of it completes (the stream was handed to the shell/SFTP
subsystem and then closed), the entry for `"abc"` is still in the Session Registry —
`tun.ConnHandler` never deletes it, contradicting the claim that completion removes
the entry. -/
theorem c1_entry_remains_after_handling_completes :
    (connHandler ⟨"abc", true, false, some 7⟩ []).handled = true ∧
    regContains (connHandler ⟨"abc", true, false, some 7⟩ []).registry "abc" = true := by
  decide

/-- C7: a session-close directive is idempotent — applying `tun.CloseHandler` for the
same id twice leaves exactly the registry produced by the first application (so the
second call is a no-op on the then-absent key, and no error is possible since the
operation is total). -/
theorem c7_close_directive_idempotent (m : Registry) (i : SessionId) :
    closeHandler (closeHandler m i) i = closeHandler m i := by
  simp [closeHandler, closeSession, regRemove, List.filter_filter]

/-- C8: the connection identifier is `"{namespace}.{tenantName}@{sshHost}"` with the
SSH endpoint's port suffix stripped, for all inputs; in particular namespace
`"acme"`, tenant name `"device-42"` and endpoint `"ssh.example.com:22"` yield
exactly `"acme.device-42@ssh.example.com"`. -/
theorem c8_sshid_format (nspace tenantName sshEndpoint : String) :
    sshidOf nspace tenantName sshEndpoint =
      nspace ++ "." ++ tenantName ++ "@" ++ hostOfEndpoint sshEndpoint ∧
    sshidOf "acme" "device-42" "ssh.example.com:22" = "acme.device-42@ssh.example.com" := by
  constructor
  · apply String.ext
    simp [sshidOf, sshidTemplate, goReplacer, matchesAt, String.toList, hostOfEndpoint]
  · rfl

/-- C10: on a tick of the identity refresh loop, `serv.SetDeviceName` is called
exactly when `agent.authorize()` returns an error, and on a successful
re-authentication the device name presented to session routing is left unchanged. -/
theorem c10_set_device_name_iff_auth_error (sessions : Registry) (e : Bool)
    (cachedName prevName : String) :
    (refreshTick sessions e cachedName prevName).setDeviceNameCalled = e ∧
    (refreshTick sessions false cachedName prevName).routingName = prevName := by
  cases e <;> simp [refreshTick]

/-- C4: the supervisor loop applies no backoff when the accept loop returns — the
iteration in which `tun.Listen` returns with an error performs no sleep at all,
whereas the dial-failure iteration sleeps the fixed 10 seconds; this contradicts the
claim that every failure branch waits the backoff interval. -/
theorem c4_no_backoff_after_listen_returns :
    (supervisorIteration SupEvent.listenErr).filter isSleepAction = [] ∧
    (supervisorIteration SupEvent.dialFail).filter isSleepAction = [SupAction.sleep 10] := by
  decide

/-- C6: with an everything-succeeds environment, a proxy exchange whose original URL
is the scheme-less virtual request URL and whose `X-Path` is `"/status"` writes the
request with URL path `"/status"` but with scheme `""`, not `"http"` — the
`r.URL.Scheme = "http"` assignment is discarded when `r.URL` is then replaced by the
parse result. -/
theorem c6_scheme_rewrite_discarded :
    ((httpHandler ⟨⟨"", "", "/ssh/http"⟩, "/status", "acme", "10.0.0.1:42000"⟩
        ⟨true, true, true, CopyEnd.cleanEOF⟩).writeURL.map URL.path == some "/status") = true ∧
    ((httpHandler ⟨⟨"", "", "/ssh/http"⟩, "/status", "acme", "10.0.0.1:42000"⟩
        ⟨true, true, true, CopyEnd.cleanEOF⟩).writeURL.map URL.scheme == some "http") = false := by
  decide

/-- The proxy request of the end-to-end error scenario: namespace `"acme"`, target
path `"/status"`, with the scheme-less virtual request URL of the proxy route. -/
def reqC3 : ProxyRequest :=
  ⟨⟨"", "", "/ssh/http"⟩, "/status", "acme", "203.0.113.7:41000"⟩

/-- An environment in which the local service is down: `net.Dial` fails. -/
def envDialDown : ProxyEnv := ⟨false, true, true, CopyEnd.cleanEOF⟩

/-- C3: every proxy-exchange failure before the hijack — dial failure, URL parse
failure, or request write failure — makes the handler invoke `replyError`, producing
a status-500 error response whose diagnostic context carries the remote address, the
`X-Namespace` value and the `X-Path` value. -/
theorem c3_prehijack_failure_reply (req : ProxyRequest) (env : ProxyEnv)
    (h : env.dialOk = false ∨ urlParse req.url req.xPath = none ∨ env.writeOk = false) :
    (httpHandler req env).reply.isSome = true ∧
    Option.all (fun e => e.code == 500 && e.remote == req.remoteAddr
      && e.nspace == req.xNamespace && e.path == req.xPath)
      (httpHandler req env).reply = true := by
  unfold httpHandler
  rcases h with h | h | h
  · simp [h]
  · by_cases hd : env.dialOk
    · simp [hd, h]
    · simp [hd]
  · by_cases hd : env.dialOk
    · cases hu : urlParse req.url req.xPath with
      | none => simp [hd, hu]
      | some u => simp [hd, hu, h]
    · simp [hd]

/-- C3 witness: a proxy directive for path `"/status"` and namespace `"acme"`
dispatched while the local service is down yields a 500 error reply whose diagnostic
context carries `"acme"` and `"/status"`. -/
theorem c3_prehijack_failure_reply_witness :
    (httpHandler reqC3 envDialDown).reply.isSome = true ∧
    Option.all (fun e => e.code == 500 && e.remote == reqC3.remoteAddr
      && e.nspace == reqC3.xNamespace && e.path == reqC3.xPath)
      (httpHandler reqC3 envDialDown).reply = true :=
  c3_prehijack_failure_reply reqC3 envDialDown (Or.inl rfl)

/-- A proxy request used to exercise the copy step of the exchange. -/
def reqC2 : ProxyRequest :=
  ⟨⟨"", "", "/ssh/http"⟩, "/info", "beta", "198.51.100.2:40000"⟩

/-- An environment in which everything up to the copy succeeds and the copy ends
with an error satisfying `errors.Is(err, io.ErrUnexpectedEOF)`. -/
def envUnexpectedEOF : ProxyEnv := ⟨true, true, true, CopyEnd.unexpectedEOF⟩

/-- C2 counterexample: when the copy from the local-service connection to the
hijacked client stream ends with `io.ErrUnexpectedEOF`, the handler does escalate it
— `replyError` runs and produces a status-500 error response — refuting the claim
that this outcome is not escalated as a hard error. -/
theorem c2_counterexample_unexpected_eof_escalated :
    (httpHandler reqC2 envUnexpectedEOF).reply =
      some ⟨"failed to copy response from device service to client", 500,
            "198.51.100.2:40000", "beta", "/info"⟩ := by
  decide

/-- C2 amended: an unexpected end-of-stream on the copy is the only copy ending the
handler escalates — the guard is `errors.Is(err, io.ErrUnexpectedEOF)`, so a reply
(always status 500) is produced exactly when the copy ends that way, and every other
copy ending (clean end of stream or any other error) returns silently. -/
theorem c2_copy_error_escalation (req : ProxyRequest) (env : ProxyEnv)
    (hd : env.dialOk = true) (hp : (urlParse req.url req.xPath).isSome = true)
    (hw : env.writeOk = true) (hh : env.hijackOk = true) :
    (httpHandler req env).reply.isSome = (env.copyEnd == CopyEnd.unexpectedEOF) ∧
    Option.all (fun e => e.code == 500) (httpHandler req env).reply = true := by
  obtain ⟨u, hu⟩ := Option.isSome_iff_exists.mp hp
  unfold httpHandler
  cases hc : env.copyEnd <;> simp [hd, hu, hw, hh, hc]

/-- C2 amended witness: at the concrete unexpected-EOF exchange the escalation
equivalence holds. -/
theorem c2_copy_error_escalation_witness :
    (httpHandler reqC2 envUnexpectedEOF).reply.isSome =
      (envUnexpectedEOF.copyEnd == CopyEnd.unexpectedEOF) ∧
    Option.all (fun e => e.code == 500) (httpHandler reqC2 envUnexpectedEOF).reply = true :=
  c2_copy_error_escalation reqC2 envUnexpectedEOF rfl (by decide) rfl rfl

/-- A session-open request whose transport is hijack-capable and hijacks cleanly but
whose context value is not a `net.Conn`, so no raw duplex stream can be recovered. -/
def c5FailReq : ConnRequest := ⟨"sess-1", true, false, none⟩

/-- C5 counterexample: a session-open request on a hijack-capable transport whose
hijack succeeds but whose `"http-conn"` context value cannot be recovered as a raw
connection fails to obtain a raw duplex stream, yet the handler returns with no
error response at all (it only logs the "Type assertion failed" warning), refuting
the claim that every such failure is answered with a server-error status. -/
theorem c5_counterexample_no_error_response :
    (connHandler ⟨"sess-2", true, false, none⟩ []).response = none ∧
    (connHandler ⟨"sess-2", true, false, none⟩ []).warned = true := by
  decide

/-- C5 amended: on every session-open failure the registry is untouched and the
stream is never bridged; a server-error (always status 500) response is produced
exactly for the first two failure kinds (transport not hijack-capable, hijack
failure), while a failure to recover the raw connection from the request context
produces no response. -/
theorem c5_open_failure_behaviour (req : ConnRequest) (m : Registry)
    (h : req.hijackable = false ∨ req.hijackErr = true ∨ req.ctxConn = none) :
    (connHandler req m).registry = m ∧
    (connHandler req m).handled = false ∧
    Option.all (fun rc => rc.2 == 500) (connHandler req m).response = true ∧
    (connHandler req m).response.isSome = (!req.hijackable || req.hijackErr) := by
  obtain ⟨i, hj, he, cc⟩ := req
  cases hj <;> cases he <;> cases cc <;> simp_all [connHandler, regPut]

/-- C5 amended witness: the context-recovery failure leaves the registry empty,
bridges nothing and answers nothing. -/
theorem c5_open_failure_behaviour_witness :
    (connHandler c5FailReq []).registry = [] ∧
    (connHandler c5FailReq []).handled = false ∧
    Option.all (fun rc => rc.2 == 500) (connHandler c5FailReq []).response = true ∧
    (connHandler c5FailReq []).response.isSome = (!c5FailReq.hijackable || c5FailReq.hijackErr) :=
  c5_open_failure_behaviour c5FailReq [] (Or.inr (Or.inr rfl))

/-- C9: every fatal configuration error — an invalid log level, a single-user
password set while running as root (euid 0), or no single-user password while
running as non-root — makes `NewAgentServer` call `os.Exit(1)` during the startup
checks, before the agent or any tunnel connection is created. -/
theorem c9_fatal_config_error_exits (opts : ConfigOptions) (euid : Nat)
    (h : parseLevelOk opts.LogLevel = false ∨
         (euid = 0 ∧ opts.SingleUserPassword ≠ "") ∨
         (euid ≠ 0 ∧ opts.SingleUserPassword = "")) :
    startupChecks opts euid = StartupOutcome.exited 1 := by
  unfold startupChecks
  rcases h with h | ⟨h1, h2⟩ | ⟨h1, h2⟩
  · simp [h]
  · by_cases hp : parseLevelOk opts.LogLevel <;> simp_all
  · by_cases hp : parseLevelOk opts.LogLevel <;> simp_all

/-- C9 witness: the unparsable log level `"verbose"` exits at startup even with an
otherwise consistent root configuration. -/
theorem c9_fatal_config_error_exits_witness :
    startupChecks ⟨"verbose", ""⟩ 0 = StartupOutcome.exited 1 :=
  c9_fatal_config_error_exits ⟨"verbose", ""⟩ 0 (Or.inl (by decide))

end ShellHubAgent
